import Mathlib

/-!
Shallow embedding of the targeting / steering / input systems of
`src/main.rs` (the "Gravity War" bevy application).

Modelling conventions:

* Rust `f32` values are modelled as exact rationals (`ℚ`).  Every claim
  settled here is about clamping, selection (argmin), control flow and
  data flow, none of which depend on floating-point rounding.
* `Vec3` / `Vec2` (glam) are products of rationals.
* `Target.distance` in the source stores the Euclidean distance
  `target.distance(transform.translation)` (an `f32` square root); the
  embedding stores the squared Euclidean distance `distanceSq`.  The
  square root is strictly monotone on non-negative reals and
  `f32::total_cmp` on two non-negative distances agrees with the usual
  order, so the `min_by` selection over distances coincides with the
  selection over squared distances, and the stored value determines the
  stored distance (it is its square).
* `Vec2::angle_between` (atan2-based, transcendental) is passed as an
  explicit function parameter `angleBetween` to the steering embedding;
  every theorem below quantifies over it or instantiates it at an input
  where the true angle is exactly representable (parallel vectors, where
  `angle_between` returns exactly 0 since `perp_dot = 0` and `dot > 0`).
* Bevy's `HashMap` has unspecified iteration order; the embedding uses an
  association list in key-first-insertion order.  No claim settled below
  depends on the chosen order (this is noted where relevant).
-/

namespace GravityWar

/-- 2D vector (glam `Vec2`), modelled over `ℚ`. -/
abbrev Vec2 := ℚ × ℚ

/-- 3D vector (glam `Vec3`), modelled over `ℚ`. -/
abbrev Vec3 := ℚ × ℚ × ℚ

/-- Componentwise addition of `Vec3` (glam `Add` for `Vec3`). -/
def vadd (a b : Vec3) : Vec3 := (a.1 + b.1, a.2.1 + b.2.1, a.2.2 + b.2.2)

/-- Componentwise subtraction of `Vec3` (glam `Sub` for `Vec3`). -/
def vsub (a b : Vec3) : Vec3 := (a.1 - b.1, a.2.1 - b.2.1, a.2.2 - b.2.2)

/-- Scalar multiplication `Vec3 * f32` (glam). -/
def vmul (a : Vec3) (c : ℚ) : Vec3 := (a.1 * c, a.2.1 * c, a.2.2 * c)

/-- Drop the z component: glam `Vec3::truncate`. -/
def truncate (v : Vec3) : Vec2 := (v.1, v.2.1)

/-- Squared Euclidean distance between two `Vec3` values.  The source
computes `a.distance(b)` (the square root of this quantity); see the
module comment for why the square faithfully represents both the
`min_by` selection and the stored distance. -/
def distanceSq (a b : Vec3) : ℚ :=
  (a.1 - b.1) * (a.1 - b.1) + (a.2.1 - b.2.1) * (a.2.1 - b.2.1) +
    (a.2.2 - b.2.2) * (a.2.2 - b.2.2)

/-- The `Faction(pub u32)` component. -/
structure Faction where
  val : ℕ
deriving DecidableEq, Repr

/-- The `Target` component: cached nearest-hostile position and distance
(here: squared distance, see module comment). -/
structure Target where
  translation : Vec3
  distanceSq : ℚ
deriving DecidableEq, Repr

/-- The `Target::default()` value: zero translation, zero distance. -/
def Target.deflt : Target := { translation := (0, 0, 0), distanceSq := 0 }

/-- A bevy `Transform` as used by this program.  The source reads only
`transform.translation` and `transform.up()` (the rotated +Y axis); we
model the derived up vector directly instead of a quaternion. -/
structure Transform where
  translation : Vec3
  up : Vec3
deriving DecidableEq, Repr

/-- The `Configuration` resource. -/
structure Configuration where
  rotation_force : ℚ
  propulsion_force : ℚ
  aim_distance : ℚ
  rotation_max : ℚ
deriving DecidableEq, Repr

/-- The `Default for Configuration` impl (decimal literals taken as exact
rationals). -/
def Configuration.deflt : Configuration :=
  { rotation_force := 1 / 50
    propulsion_force := 50
    aim_distance := 100
    rotation_max := 1 / 20 }

/-! ## update_targets -/

/-- One row of the `Query<(&Faction, &Transform, &mut Target)>` used by
`update_targets`, in iteration order of the query. -/
structure TEntry where
  faction : Faction
  transform : Transform
  target : Target
deriving DecidableEq, Repr

/-- Itertools `group_by`: groups maximal runs of CONSECUTIVE elements
with equal key (it does not merge non-adjacent runs of the same key). -/
def groupRuns : List (Faction × Vec3) → List (Faction × List Vec3)
  | [] => []
  | (f, v) :: rest =>
    match groupRuns rest with
    | [] => [(f, [v])]
    | (g, vs) :: gs =>
      if f = g then (f, v :: vs) :: gs else (f, [v]) :: (g, vs) :: gs

/-- `HashMap::insert` on an association list: replaces the value at an
existing key (keeping its position), otherwise appends. -/
def insertKV (m : List (Faction × List Vec3)) (kv : Faction × List Vec3) :
    List (Faction × List Vec3) :=
  match m with
  | [] => [kv]
  | hd :: tl => if hd.1 = kv.1 then (hd.1, kv.2) :: tl else hd :: insertKV tl kv

/-- The `targets_by_faction` map of `update_targets`: consecutive-run
grouping collected into a `HashMap` (a duplicate key OVERWRITES the
earlier run's positions — `collect::<HashMap<_,_>>` keeps the last
inserted value).  Iteration order of the real `HashMap` is unspecified;
we fix key-first-insertion order, and no settled claim depends on it. -/
def targetsByFaction (rows : List (Faction × Vec3)) : List (Faction × List Vec3) :=
  (groupRuns rows).foldl insertKV []

/-- The candidate positions for an entity of faction `f`: the map entries
whose key differs from `f`, flat-mapped to their position lists. -/
def candidates (m : List (Faction × List Vec3)) (f : Faction) : List Vec3 :=
  ((m.filter fun kv => kv.1 ≠ f).map fun kv => kv.2).flatten

/-- Rust `Iterator::min_by` over `(position, squared distance)` pairs,
comparing by distance with `total_cmp`; on ties the FIRST element in
iteration order is kept. -/
def minByDistSq (p : Vec3) (cands : List Vec3) : Option (Vec3 × ℚ) :=
  cands.foldl
    (fun acc t =>
      match acc with
      | none => some (t, distanceSq t p)
      | some (bt, bd) =>
        if distanceSq t p < bd then some (t, distanceSq t p) else some (bt, bd))
    none

/-- The `update_targets` system: builds `targets_by_faction` from the
snapshot, then for each entity takes the min-distance candidate outside
its own faction; when no candidate exists the entity's `Target` is left
untouched. -/
def updateTargets (rows : List TEntry) : List TEntry :=
  let m := targetsByFaction (rows.map fun r => (r.faction, r.transform.translation))
  rows.map fun r =>
    match minByDistSq r.transform.translation (candidates m r.faction) with
    | some (t, d) => { r with target := { translation := t, distanceSq := d } }
    | none => r

/-! ## apply_forces -/

/-- The rapier `ExternalForce` component: a 2D force and a torque. -/
structure ExternalForce where
  force : Vec2
  torque : ℚ
deriving DecidableEq, Repr

/-- The `ExternalForce::default()` value. -/
def ExternalForce.deflt : ExternalForce := { force := (0, 0), torque := 0 }

/-- Rust `f32::clamp(x, lo, hi)` (for `lo ≤ hi`, the case exercised by
the program): `lo` if `x < lo`, `hi` if `x > hi`, else `x`. -/
def rustClamp (x lo hi : ℚ) : ℚ :=
  if x < lo then lo else if x > hi then hi else x

/-- The per-entity body of `apply_forces`: computes `target_direction`,
reads the forward heading `transform.up()`, takes the signed angle
between their truncations (via the supplied `angleBetween` function),
and produces the new `ExternalForce`:
`torque = clamp(angle * rotation_force, -rotation_max, rotation_max)`,
`force = (up * propulsion_force).truncate()`. -/
def applyForcesEntity (angleBetween : Vec2 → Vec2 → ℚ) (cfg : Configuration)
    (transform : Transform) (target : Target) : ExternalForce :=
  let target_direction := vsub target.translation transform.translation
  let direction := transform.up
  let angle := angleBetween (truncate direction) (truncate target_direction)
  { torque := rustClamp (angle * cfg.rotation_force) (-cfg.rotation_max) cfg.rotation_max
    force := truncate (vmul direction cfg.propulsion_force) }

/-- One row of the `apply_forces` query
`Query<(&Faction, &Target, &Transform, &mut ExternalForce), With<Spaceship>>`. -/
structure FEntry where
  faction : Faction
  target : Target
  transform : Transform
  ext_force : ExternalForce
deriving DecidableEq, Repr

/-- The `apply_forces` system: writes a fresh `ExternalForce` for EVERY
spaceship row in the query — the loop body has no conditional, so no
entity is skipped.  (The debug-line emission is purely diagnostic and
not modelled.) -/
def applyForces (angleBetween : Vec2 → Vec2 → ℚ) (cfg : Configuration)
    (rows : List FEntry) : List FEntry :=
  rows.map fun r =>
    { r with ext_force := applyForcesEntity angleBetween cfg r.transform r.target }

/-! ## move_spaceship -/

/-- Pressed-state of the four arrow keys read by `move_spaceship`. -/
structure Keyboard where
  up : Bool
  down : Bool
  left : Bool
  right : Bool
deriving DecidableEq, Repr

/-- The per-entity body of `move_spaceship`: entities whose faction is
not `Faction(1)` are skipped (`continue`); for faction 1, each pressed
arrow key adds `±Vec3::X/Y * (1000 * delta_seconds)` to the
translation, in source order up, down, left, right. -/
def moveSpaceshipEntity (kb : Keyboard) (dt : ℚ) (transform : Transform)
    (faction : Faction) : Transform :=
  if faction ≠ ⟨1⟩ then transform
  else
    let speed : ℚ := 1000 * dt
    let t1 := if kb.up then vadd transform.translation (vmul (0, 1, 0) speed)
      else transform.translation
    let t2 := if kb.down then vsub t1 (vmul (0, 1, 0) speed) else t1
    let t3 := if kb.left then vsub t2 (vmul (1, 0, 0) speed) else t2
    let t4 := if kb.right then vadd t3 (vmul (1, 0, 0) speed) else t3
    { transform with translation := t4 }

/-! ## spawn_by_click and the spaceship bundle -/

/-- Pointer-button `just_pressed` state read by `spawn_by_click`. -/
structure MouseButtons where
  left_just_pressed : Bool
  right_just_pressed : Bool
deriving DecidableEq, Repr

/-- A `CursorMoved` event (window-space pointer position). -/
structure CursorMoved where
  position : Vec2
deriving DecidableEq, Repr

/-- The components of `spaceship_bundle` relevant to this core: faction,
default target, default external force, and the spawn translation
`Transform::from_xyz(x, y, 0.0)`.  (Collider shape, restitution,
gravity scale and damping are fixed constants not read by any claim.) -/
structure SpaceshipBundle where
  faction : Faction
  target : Target
  ext_force : ExternalForce
  translation : Vec3
deriving DecidableEq, Repr

/-- The `spaceship_bundle` factory. -/
def spaceship_bundle (faction : ℕ) (x y : ℚ) : SpaceshipBundle :=
  { faction := ⟨faction⟩
    target := Target.deflt
    ext_force := ExternalForce.deflt
    translation := (x, y, 0) }

/-- The `faction_to_spawn` selection in `spawn_by_click`: primary button
gives faction 1 (checked first), secondary gives faction 2, else none. -/
def faction_to_spawn (m : MouseButtons) : Option ℕ :=
  if m.left_just_pressed then some 1
  else if m.right_just_pressed then some 2
  else none

/-- The `spawn_by_click` system, returning the list of bundles spawned
this tick.  When a faction is selected it takes the LAST `CursorMoved`
event of the tick (`events.iter().last()`) and spawns one bundle at
`(x - 1280/2, y - 720/2)` — the window size is hard-coded, not read
from the viewport; with no event available nothing is spawned. -/
def spawn_by_click (m : MouseButtons) (events : List CursorMoved) :
    List SpaceshipBundle :=
  match faction_to_spawn m with
  | some f =>
    match events.getLast? with
    | some e =>
      [spaceship_bundle f (e.position.1 - 1280 / 2) (e.position.2 - 720 / 2)]
    | none => []
  | none => []

/-! ## Faction colors -/

/-- The five palette entries of the `From<Faction> for Color` impl. -/
inductive Color where
  | blue
  | red
  | green
  | yellow
  | purple
deriving DecidableEq, Repr

/-- The `COLORS` array of the `From<Faction> for Color` impl. -/
def COLORS : List Color := [.blue, .red, .green, .yellow, .purple]

/-- The `From<Faction> for Color` conversion, `COLORS[value.0 as usize]`.
Rust array indexing panics out of bounds; the panic is modelled as
`none`. -/
def colorFromFaction (f : Faction) : Option Color := COLORS.get? f.val

/-! ## Helper lemmas -/

/-- Every key produced by the consecutive-run grouping is the faction of
some snapshot element. -/
lemma groupRuns_key_mem {l : List (Faction × Vec3)} {kv : Faction × List Vec3}
    (h : kv ∈ groupRuns l) : ∃ p ∈ l, p.1 = kv.1 := by
  induction l generalizing kv with
  | nil => simp [groupRuns] at h
  | cons a rest ih =>
    obtain ⟨f, v⟩ := a
    simp only [groupRuns] at h
    split at h
    · simp at h
      exact ⟨(f, v), by simp, by rw [h]⟩
    · rename_i g vs gs heq
      split at h
      · rcases List.mem_cons.mp h with h1 | h1
        · exact ⟨(f, v), by simp, by rw [h1]⟩
        · have hmem : kv ∈ groupRuns rest := by
            rw [heq]; exact List.mem_cons_of_mem _ h1
          obtain ⟨p, hp, hpk⟩ := ih hmem
          exact ⟨p, List.mem_cons_of_mem _ hp, hpk⟩
      · rcases List.mem_cons.mp h with h1 | h1
        · exact ⟨(f, v), by simp, by rw [h1]⟩
        · have hmem : kv ∈ groupRuns rest := by rw [heq]; exact h1
          obtain ⟨p, hp, hpk⟩ := ih hmem
          exact ⟨p, List.mem_cons_of_mem _ hp, hpk⟩

/-- Keys after a `HashMap` insertion come from the old map or from the
inserted pair. -/
lemma insertKV_key_mem {m : List (Faction × List Vec3)}
    {kv kv' : Faction × List Vec3} (h : kv' ∈ insertKV m kv) :
    kv'.1 ∈ m.map Prod.fst ∨ kv'.1 = kv.1 := by
  induction m with
  | nil => simp [insertKV] at h; right; rw [h]
  | cons hd tl ih =>
    simp only [insertKV] at h
    split at h
    · rcases List.mem_cons.mp h with h1 | h1
      · left; simp [h1]
      · left; exact List.mem_map_of_mem _ (List.mem_cons_of_mem _ h1)
    · rcases List.mem_cons.mp h with h1 | h1
      · left; simp [h1]
      · rcases ih h1 with h2 | h2
        · left; exact List.mem_cons_of_mem _ h2
        · right; exact h2

/-- Keys of the collected map come from the accumulator or from the
grouped runs. -/
lemma foldl_insertKV_key_mem {gs : List (Faction × List Vec3)}
    {acc : List (Faction × List Vec3)} {kv : Faction × List Vec3}
    (h : kv ∈ gs.foldl insertKV acc) :
    kv.1 ∈ acc.map Prod.fst ∨ kv.1 ∈ gs.map Prod.fst := by
  induction gs generalizing acc with
  | nil => left; simpa using List.mem_map_of_mem Prod.fst h
  | cons g tl ih =>
    rw [List.foldl_cons] at h
    rcases ih h with h1 | h1
    · simp only [List.mem_map] at h1
      obtain ⟨p, hp, hpk⟩ := h1
      rcases insertKV_key_mem hp with h2 | h2
      · left; rw [← hpk]; exact h2
      · right; simp [← hpk, h2]
    · right; exact List.mem_cons_of_mem _ h1

/-- Every key of `targets_by_faction` is the faction of some entity of
the snapshot. -/
lemma targetsByFaction_key_mem {rows : List TEntry}
    {kv : Faction × List Vec3}
    (h : kv ∈ targetsByFaction (rows.map fun r => (r.faction, r.transform.translation))) :
    ∃ r ∈ rows, r.faction = kv.1 := by
  rcases foldl_insertKV_key_mem h with h1 | h1
  · simp at h1
  · simp only [List.mem_map] at h1
    obtain ⟨p, hp, hpk⟩ := h1
    obtain ⟨q, hq, hqk⟩ := groupRuns_key_mem hp
    simp only [List.mem_map] at hq
    obtain ⟨r, hr, hrq⟩ := hq
    refine ⟨r, hr, ?_⟩
    rw [← hpk, ← hqk, ← hrq]

/-- When every entity of the snapshot has faction `F`, an entity of
faction `F` has no candidate targets. -/
lemma candidates_eq_nil {rows : List TEntry} {F : Faction}
    (h : ∀ r ∈ rows, r.faction = F) :
    candidates
      (targetsByFaction (rows.map fun r => (r.faction, r.transform.translation)))
      F = [] := by
  unfold candidates
  have hfilter :
      (targetsByFaction (rows.map fun r => (r.faction, r.transform.translation))).filter
        (fun kv => kv.1 ≠ F) = [] := by
    rw [List.filter_eq_nil_iff]
    intro kv hkv
    obtain ⟨r, hr, hrk⟩ := targetsByFaction_key_mem hkv
    simp [← hrk, h r hr]
  rw [hfilter]
  rfl

/-! ## Claim theorems -/

/-- The snapshot exhibiting the `group_by` / `HashMap`-collect defect:
two faction-1 entities separated, in query iteration order, by a
faction-2 entity. -/
def c1Rows : List TEntry :=
  [ { faction := ⟨1⟩, transform := { translation := (0, 0, 0), up := (0, 1, 0) },
      target := Target.deflt }
  , { faction := ⟨2⟩, transform := { translation := (5, 0, 0), up := (0, 1, 0) },
      target := Target.deflt }
  , { faction := ⟨1⟩, transform := { translation := (100, 0, 0), up := (0, 1, 0) },
      target := Target.deflt } ]

/-- C1: REFUTED (code defect).  Itertools `group_by` only groups
CONSECUTIVE elements, and collecting the runs into a `HashMap` keeps
only the last run per faction, so non-consecutive same-faction entities
are dropped from the candidate set.  On the snapshot
`[(faction 1, (0,0,0)), (faction 2, (5,0,0)), (faction 1, (100,0,0))]`
the faction-2 entity at `(5,0,0)` resolves target `(100,0,0)`
(squared distance 9025) although the cross-faction entity at `(0,0,0)`
is strictly closer (squared distance 25) — not the minimum-distance
entity outside its faction, contradicting the claim.  The snapshot has
2 distinct factions.  This holds regardless of `HashMap` iteration
order (faction 1 is the only other key). -/
theorem C1_update_targets_not_nearest :
    ((updateTargets c1Rows).get? 1).map (fun r => r.target) =
      some { translation := (100, 0, 0), distanceSq := 9025 }
    ∧ (c1Rows.get? 1).map (fun r => r.faction) = some ⟨2⟩
    ∧ (c1Rows.get? 0).map (fun r => r.faction) = some ⟨1⟩
    ∧ (c1Rows.get? 0).map (fun r => r.transform.translation) = some (0, 0, 0)
    ∧ distanceSq (0, 0, 0) (5, 0, 0) < distanceSq (100, 0, 0) (5, 0, 0) := by
  refine ⟨?_, ?_, ?_, ?_, ?_⟩ <;>
    norm_num [c1Rows, updateTargets, targetsByFaction, groupRuns, insertKV,
      candidates, minByDistSq, distanceSq, Target.deflt]

/-- C2: when every entity of the snapshot has the same faction (so no
cross-faction entity exists this tick), `update_targets` leaves every
entity — in particular its previous `Target` value — unchanged. -/
theorem C2_no_cross_faction_target_unchanged (rows : List TEntry) (F : Faction)
    (h : ∀ r ∈ rows, r.faction = F) : updateTargets rows = rows := by
  unfold updateTargets
  conv_rhs => rw [← List.map_id rows]
  apply List.map_congr_left
  intro r hr
  rw [h r hr, candidates_eq_nil h]
  rfl

/-- Witness for C2: a single-faction two-entity snapshot with a nonzero
previous target is returned unchanged. -/
theorem C2_witness :
    (∀ r ∈
        [ ({ faction := ⟨3⟩,
             transform := { translation := (1, 2, 0), up := (0, 1, 0) },
             target := { translation := (7, 8, 9), distanceSq := 4 } } : TEntry)
        , { faction := ⟨3⟩,
            transform := { translation := (4, 6, 0), up := (0, 1, 0) },
            target := Target.deflt } ],
        r.faction = (⟨3⟩ : Faction))
    ∧ updateTargets
        [ { faction := ⟨3⟩,
            transform := { translation := (1, 2, 0), up := (0, 1, 0) },
            target := { translation := (7, 8, 9), distanceSq := 4 } }
        , { faction := ⟨3⟩,
            transform := { translation := (4, 6, 0), up := (0, 1, 0) },
            target := Target.deflt } ] =
        [ { faction := ⟨3⟩,
            transform := { translation := (1, 2, 0), up := (0, 1, 0) },
            target := { translation := (7, 8, 9), distanceSq := 4 } }
        , { faction := ⟨3⟩,
            transform := { translation := (4, 6, 0), up := (0, 1, 0) },
            target := Target.deflt } ] :=
  ⟨by intro r hr; fin_cases hr <;> rfl,
    C2_no_cross_faction_target_unchanged _ ⟨3⟩
      (by intro r hr; fin_cases hr <;> rfl)⟩

/-- Rust `clamp` with ordered bounds lands in the interval. -/
lemma rustClamp_mem {x lo hi : ℚ} (h : lo ≤ hi) :
    lo ≤ rustClamp x lo hi ∧ rustClamp x lo hi ≤ hi := by
  unfold rustClamp
  split_ifs <;> constructor <;> linarith

/-- C3: for every angle (quantified through the `angleBetween` function,
target and transform) and every configuration with `rotation_max ≥ 0`,
the torque written by `apply_forces` equals
`clamp(angle * rotation_force, -rotation_max, rotation_max)` and lies in
`[-rotation_max, rotation_max]`. -/
theorem C3_torque_clamped (ab : Vec2 → Vec2 → ℚ) (cfg : Configuration)
    (tr : Transform) (tg : Target) (h : 0 ≤ cfg.rotation_max) :
    (applyForcesEntity ab cfg tr tg).torque =
      rustClamp
        (ab (truncate tr.up) (truncate (vsub tg.translation tr.translation)) *
          cfg.rotation_force)
        (-cfg.rotation_max) cfg.rotation_max
    ∧ -cfg.rotation_max ≤ (applyForcesEntity ab cfg tr tg).torque
    ∧ (applyForcesEntity ab cfg tr tg).torque ≤ cfg.rotation_max := by
  have hb : -cfg.rotation_max ≤ cfg.rotation_max := by linarith
  exact ⟨rfl, (rustClamp_mem hb).1, (rustClamp_mem hb).2⟩

/-- Witness for C3 at the default configuration, a constant angle of 7
(beyond the clamp boundary: `7 * (1/50) = 7/50 > 1/20`), an entity at
the origin facing +Y and the default target. -/
theorem C3_witness :
    0 ≤ Configuration.deflt.rotation_max
    ∧ -Configuration.deflt.rotation_max ≤
        (applyForcesEntity (fun _ _ => 7) Configuration.deflt
          { translation := (0, 0, 0), up := (0, 1, 0) } Target.deflt).torque
    ∧ (applyForcesEntity (fun _ _ => 7) Configuration.deflt
        { translation := (0, 0, 0), up := (0, 1, 0) } Target.deflt).torque ≤
        Configuration.deflt.rotation_max :=
  ⟨by norm_num [Configuration.deflt],
    (C3_torque_clamped (fun _ _ => 7) Configuration.deflt
      { translation := (0, 0, 0), up := (0, 1, 0) } Target.deflt
      (by norm_num [Configuration.deflt])).2.1,
    (C3_torque_clamped (fun _ _ => 7) Configuration.deflt
      { translation := (0, 0, 0), up := (0, 1, 0) } Target.deflt
      (by norm_num [Configuration.deflt])).2.2⟩

/-- The `update_targets` query row of the C4 scenario: a lone faction-1
entity at `(0, -5, 0)` facing +Y, with the default (never-assigned)
target. -/
def c4TRow : TEntry :=
  { faction := ⟨1⟩
    transform := { translation := (0, -5, 0), up := (0, 1, 0) }
    target := Target.deflt }

/-- The `apply_forces` query row of the C4 scenario (same entity, with
the default zero `ExternalForce`). -/
def c4FRow : FEntry :=
  { faction := ⟨1⟩
    target := Target.deflt
    transform := { translation := (0, -5, 0), up := (0, 1, 0) }
    ext_force := ExternalForce.deflt }

/-- C4: REFUTED.  The `apply_forces` loop body has no conditional: every
spaceship gets a fresh torque/force each tick, even with no target.  In
a one-entity, one-faction snapshot `update_targets` assigns no target
(the `Target` stays at its default), yet `apply_forces` overwrites the
entity's zero `ExternalForce` with force `(0, 50)` (heading `(0,1)`
times `propulsion_force = 50`) — the force command is NOT left
unchanged.  The angle function is instantiated at the constant 0, the
exact value `Vec2::angle_between((0,1),(0,5))` takes here (the vectors
are parallel: `perp_dot = 0`, `dot = 5 > 0`, `atan2 0 5 = 0`). -/
theorem C4_no_target_still_updates :
    updateTargets [c4TRow] = [c4TRow]
    ∧ (applyForces (fun _ _ => 0) Configuration.deflt [c4FRow]).map
        (fun r => r.ext_force.force) = [((0 : ℚ), (50 : ℚ))]
    ∧ (applyForces (fun _ _ => 0) Configuration.deflt [c4FRow]).map
        (fun r => r.ext_force) ≠ [c4FRow].map (fun r => r.ext_force) := by
  refine ⟨?_, ?_, ?_⟩ <;>
    norm_num [c4TRow, c4FRow, updateTargets, targetsByFaction, groupRuns,
      insertKV, candidates, minByDistSq, distanceSq, Target.deflt,
      ExternalForce.deflt, applyForces, applyForcesEntity, rustClamp,
      Configuration.deflt, truncate, vmul, vsub]

/-- C4 amended: the steering step updates EVERY spaceship's
`ExternalForce` each tick — including entities with no target this
tick, whose last-known (or default) `Target` is used — rather than
skipping them. -/
theorem C4_amended_unconditional_update (ab : Vec2 → Vec2 → ℚ)
    (cfg : Configuration) (rows : List FEntry) (i : ℕ) :
    ((applyForces ab cfg rows).get? i).map (fun r => r.ext_force) =
      (rows.get? i).map (fun r => applyForcesEntity ab cfg r.transform r.target) := by
  simp [applyForces, List.getElem?_map, Option.map_map]
  rfl

/-- Definition following the SPEC's words, for comparison with the
code's spawn position: the claim says the entity is placed at the
pointer position minus half the VIEWPORT dimensions,
`(x - W/2, y - H/2, 0)`. -/
def spawnPositionClaim (W H x y : ℚ) : Vec3 := (x - W / 2, y - H / 2, 0)

/-- C5: REFUTED as universally stated.  `spawn_by_click` subtracts the
hard-coded constants `1280/2` and `720/2`; it never reads the viewport.
With viewport `(800, 600)` and pointer `(400, 300)` the claim predicts
position `(0, 0, 0)` but the code spawns at `(-240, -60, 0)`. -/
theorem C5_viewport_counterexample :
    (spawn_by_click ⟨true, false⟩ [{ position := (400, 300) }]).map
      (fun b => b.translation) = [((-240 : ℚ), (-60 : ℚ), (0 : ℚ))]
    ∧ ((-240 : ℚ), (-60 : ℚ), (0 : ℚ)) ≠ spawnPositionClaim 800 600 400 300 := by
  constructor
  · norm_num [spawn_by_click, faction_to_spawn, spaceship_bundle]
  · norm_num [spawnPositionClaim]

/-- C5 amended: spawn-on-click places the new entity at
`(x - 1280/2, y - 720/2, 0)` — half of a hard-coded 1280×720 window
size, not of the actual viewport — with faction 1 on a primary-button
press and faction 2 on a secondary-button press (primary checked
first). -/
theorem C5_spawn_hardcoded_halfwindow (m : MouseButtons)
    (evs : List CursorMoved) (x y : ℚ) (f : ℕ)
    (hlast : evs.getLast? = some { position := (x, y) }) :
    (m.left_just_pressed = true →
      spawn_by_click m evs = [spaceship_bundle 1 (x - 1280 / 2) (y - 720 / 2)])
    ∧ (m.left_just_pressed = false → m.right_just_pressed = true →
      spawn_by_click m evs = [spaceship_bundle 2 (x - 1280 / 2) (y - 720 / 2)])
    ∧ (spaceship_bundle f x y).translation = (x, y, 0)
    ∧ (spaceship_bundle f x y).faction = ⟨f⟩ := by
  refine ⟨?_, ?_, rfl, rfl⟩
  · intro hl
    simp [spawn_by_click, faction_to_spawn, hl, hlast]
  · intro hl hr
    simp [spawn_by_click, faction_to_spawn, hl, hr, hlast]

/-- Witness for C5 amended: a primary-button click at pointer
`(400, 300)` spawns one faction-1 entity at `(400 - 640, 300 - 360, 0)`. -/
theorem C5_witness :
    ([({ position := (400, 300) } : CursorMoved)].getLast? =
      some { position := ((400 : ℚ), (300 : ℚ)) })
    ∧ spawn_by_click ⟨true, false⟩ [{ position := (400, 300) }] =
        [spaceship_bundle 1 (400 - 1280 / 2) (300 - 720 / 2)] :=
  ⟨rfl,
    (C5_spawn_hardcoded_halfwindow ⟨true, false⟩ [{ position := (400, 300) }]
      400 300 0 rfl).1 rfl⟩

/-- C6: `move_spaceship` skips (`continue`) every entity whose faction
is not `Faction(1)`: its transform is left unchanged regardless of
which keys are pressed and of the elapsed time. -/
theorem C6_only_faction_one_moves (kb : Keyboard) (dt : ℚ) (tr : Transform)
    (f : Faction) (h : f ≠ ⟨1⟩) : moveSpaceshipEntity kb dt tr f = tr := by
  simp [moveSpaceshipEntity, h]

/-- Witness for C6: a faction-2 entity with all four arrow keys pressed
and a nonzero time step does not move. -/
theorem C6_witness :
    (⟨2⟩ : Faction) ≠ ⟨1⟩
    ∧ moveSpaceshipEntity ⟨true, true, true, true⟩ 1
        { translation := (3, 4, 0), up := (0, 1, 0) } ⟨2⟩ =
        { translation := (3, 4, 0), up := (0, 1, 0) } :=
  ⟨by decide,
    C6_only_faction_one_moves ⟨true, true, true, true⟩ 1
      { translation := (3, 4, 0), up := (0, 1, 0) } ⟨2⟩ (by decide)⟩

/-- C7: the force written by the Steering Controller is the entity's
forward heading scaled by `propulsion_force` (then truncated to 2D),
identical for ANY two targets — thrust is never gated by target
distance or by the angle between heading and target. -/
theorem C7_force_independent_of_target (ab : Vec2 → Vec2 → ℚ)
    (cfg : Configuration) (tr : Transform) (t1 t2 : Target) :
    (applyForcesEntity ab cfg tr t1).force =
      truncate (vmul tr.up cfg.propulsion_force)
    ∧ (applyForcesEntity ab cfg tr t1).force =
      (applyForcesEntity ab cfg tr t2).force :=
  ⟨rfl, rfl⟩

/-- C8: the faction-to-color mapping succeeds exactly for faction ids
0 through 4 (the palette size); beyond 4 the lookup is out of bounds
(a panic in the source, `none` here).  Every bundle `spawn_by_click`
creates carries faction 1 or 2, both inside the palette, so the
out-of-bounds branch is unreachable for program-created entities. -/
theorem C8_palette_range (n : ℕ) (m : MouseButtons) (evs : List CursorMoved)
    (b : SpaceshipBundle) :
    (n ≤ 4 → (colorFromFaction ⟨n⟩).isSome = true)
    ∧ (4 < n → colorFromFaction ⟨n⟩ = none)
    ∧ (b ∈ spawn_by_click m evs →
        (b.faction = ⟨1⟩ ∨ b.faction = ⟨2⟩)
        ∧ (colorFromFaction b.faction).isSome = true) := by
  refine ⟨?_, ?_, ?_⟩
  · intro hn
    interval_cases n <;> rfl
  · intro hn
    unfold colorFromFaction
    refine List.get?_eq_none.mpr ?_
    simp only [COLORS, List.length]
    omega
  · intro hb
    unfold spawn_by_click at hb
    have hf : ∀ f, faction_to_spawn m = some f → f = 1 ∨ f = 2 := by
      intro f hsp
      unfold faction_to_spawn at hsp
      split_ifs at hsp <;> simp_all
    cases hsp : faction_to_spawn m with
    | none => rw [hsp] at hb; simp at hb
    | some f =>
      rw [hsp] at hb
      cases hev : evs.getLast? with
      | none => rw [hev] at hb; simp at hb
      | some e =>
        rw [hev] at hb
        simp only [List.mem_singleton] at hb
        subst hb
        rcases hf f hsp with h1 | h1 <;> subst h1 <;>
          exact ⟨by simp [spaceship_bundle], rfl⟩

/-- Witness for C8: faction id 3 is inside the palette and looks up a
color, faction id 7 does not, and a spawned bundle's faction id has a
color. -/
theorem C8_witness :
    ((3 : ℕ) ≤ 4 ∧ (colorFromFaction ⟨3⟩).isSome = true)
    ∧ (4 < (7 : ℕ) ∧ colorFromFaction ⟨7⟩ = none)
    ∧ (spaceship_bundle 1 0 0 ∈ spawn_by_click ⟨true, false⟩
          [{ position := (1280 / 2, 720 / 2) }]
        ∧ ((spaceship_bundle 1 0 0).faction = ⟨1⟩ ∨
            (spaceship_bundle 1 0 0).faction = ⟨2⟩)) :=
  ⟨⟨by omega,
      (C8_palette_range 3 ⟨true, false⟩ [] (spaceship_bundle 1 0 0)).1 (by omega)⟩,
    ⟨by omega,
      (C8_palette_range 7 ⟨true, false⟩ [] (spaceship_bundle 1 0 0)).2.1 (by omega)⟩,
    by
      have hmem : spaceship_bundle 1 0 0 ∈ spawn_by_click ⟨true, false⟩
          [{ position := (1280 / 2, 720 / 2) }] := by
        norm_num [spawn_by_click, faction_to_spawn]
      exact ⟨hmem,
        ((C8_palette_range 3 ⟨true, false⟩ [{ position := (1280 / 2, 720 / 2) }]
          (spaceship_bundle 1 0 0)).2.2 hmem).1⟩⟩

/-- C9: the steering output is independent of `aim_distance`: two
configurations agreeing on `rotation_force`, `propulsion_force` and
`rotation_max` (but with arbitrary, possibly different, `aim_distance`)
produce the same torque and force for identical entity state. -/
theorem C9_aim_distance_independent (ab : Vec2 → Vec2 → ℚ) (tr : Transform)
    (tg : Target) (c1 c2 : Configuration)
    (h1 : c1.rotation_force = c2.rotation_force)
    (h2 : c1.propulsion_force = c2.propulsion_force)
    (h3 : c1.rotation_max = c2.rotation_max) :
    applyForcesEntity ab c1 tr tg = applyForcesEntity ab c2 tr tg := by
  simp only [applyForcesEntity, h1, h2, h3]

/-- Witness for C9: the default configuration against the default with
`aim_distance` doubled, at a concrete entity. -/
theorem C9_witness :
    Configuration.deflt.rotation_force =
      ({ Configuration.deflt with aim_distance := 200 }).rotation_force
    ∧ Configuration.deflt.propulsion_force =
      ({ Configuration.deflt with aim_distance := 200 }).propulsion_force
    ∧ Configuration.deflt.rotation_max =
      ({ Configuration.deflt with aim_distance := 200 }).rotation_max
    ∧ applyForcesEntity (fun _ _ => 0) Configuration.deflt
        { translation := (1, 2, 0), up := (0, 1, 0) } Target.deflt =
      applyForcesEntity (fun _ _ => 0)
        { Configuration.deflt with aim_distance := 200 }
        { translation := (1, 2, 0), up := (0, 1, 0) } Target.deflt :=
  ⟨rfl, rfl, rfl,
    C9_aim_distance_independent (fun _ _ => 0)
      { translation := (1, 2, 0), up := (0, 1, 0) } Target.deflt
      Configuration.deflt { Configuration.deflt with aim_distance := 200 }
      rfl rfl rfl⟩

/-- C10: `spawn_by_click` creates at most one entity per tick, and a
just-pressed spawn button with no `CursorMoved` event available this
tick creates nothing (the click is dropped). -/
theorem C10_at_most_one_spawn (m : MouseButtons) (evs : List CursorMoved) :
    (spawn_by_click m evs).length ≤ 1
    ∧ (evs = [] → spawn_by_click m evs = []) := by
  constructor
  · unfold spawn_by_click
    cases hsp : faction_to_spawn m with
    | none => simp
    | some f =>
      cases hev : evs.getLast? with
      | none => simp
      | some e => simp
  · intro h
    subst h
    unfold spawn_by_click
    cases hsp : faction_to_spawn m with
    | none => simp
    | some f => simp

/-- Witness for C10: both buttons just pressed and an empty event queue
spawn nothing. -/
theorem C10_witness :
    ([] : List CursorMoved) = [] ∧ spawn_by_click ⟨true, true⟩ [] = [] :=
  ⟨rfl, (C10_at_most_one_spawn ⟨true, true⟩ []).2 rfl⟩

end GravityWar

